import Mathlib

/-!
Verification of the chariot-platform backend's order financial ledger.

The definitions below are a shallow embedding of the Express route handlers in
`src/chariot-backend/server.js` and of the tables declared in
`src/chariot-backend/schema.sql`.  Persistence is modelled as explicit lists of
rows; each endpoint is a pure function from a request body and the current
store to a response and the next store.  JavaScript truthiness checks such as
`!order_id` are modelled by `strTruthy` / `intTruthy`; SQL `COALESCE($n, col)`
partial updates are modelled by `Option.getD`-style patches.  Monetary values
are integer cents (`Int`), matching the BIGINT columns of the schema.

The Ledger Reconciliation Engine's `balance` operation and the Order Rollup
Aggregator's `recompute_order_totals` are absent from the source (the schema
only declares their output columns); those two are modelled from the spec and
are marked as such in their doc comments.
-/

namespace Chariot

/-- JavaScript truthiness of an optional string parameter: `!x` is true when
the field is absent (`undefined`/`null`) or the empty string. -/
def strTruthy : Option String → Bool
  | none => false
  | some s => !(s == "")

/-- JavaScript truthiness of an optional integer parameter: `!x` is true when
the field is absent or zero (embeds the `!amount_cents` check). -/
def intTruthy : Option Int → Bool
  | none => false
  | some n => !(n == 0)

/-- JavaScript `v || dflt` for string parameters: the default is used when the
value is absent or the empty string. -/
def jsOrString (v : Option String) (dflt : String) : String :=
  match v with
  | some s => if s == "" then dflt else s
  | none => dflt

/-- A row of the `"transaction"` table (`schema.sql`), restricted to the
columns the route handlers read or write.  `amount_cents` is BIGINT NOT NULL;
`payment_reference`, `applied_date` and `note` are nullable. -/
structure TransactionRow where
  order_id : String
  customer_id : String
  transaction_type : String
  amount_cents : Int
  payment_method : Option String
  status : String
  payment_reference : Option String
  applied_date : Option Nat
  note : Option String
  deriving DecidableEq, Repr

/-- Error responses produced by the route handlers (HTTP 400 / 404 / 500). -/
inductive ApiError where
  | badRequest (msg : String)
  | notFound (msg : String)
  | serverError (msg : String)
  deriving DecidableEq, Repr

/-- Request body of `POST /api/transactions` as the handler destructures it.
The handler destructures only `company_id, location_id, order_id, customer_id,
transaction_type, amount_cents, payment_method, note`; the `status` field is
present here exactly because a caller can send it and the handler never reads
it. -/
structure TxnCreateReq where
  company_id : Option String
  location_id : Option String
  order_id : Option String
  customer_id : Option String
  transaction_type : Option String
  amount_cents : Option Int
  payment_method : Option String
  note : Option String
  status : Option String
  deriving Repr

/-- The row `POST /api/transactions` inserts: `transaction_type || 'payment'`,
literal `'pending'` status, `note || ''`. -/
def mkTxnRow (req : TxnCreateReq) : TransactionRow :=
  { order_id := req.order_id.getD ""
    customer_id := req.customer_id.getD ""
    transaction_type := jsOrString req.transaction_type "payment"
    amount_cents := req.amount_cents.getD 0
    payment_method := req.payment_method
    status := "pending"
    payment_reference := none
    applied_date := none
    note := some (req.note.getD "") }

/-- `POST /api/transactions` (`server.js` 1019-1032): rejects when
`!order_id || !customer_id || !amount_cents || !location_id`, otherwise
appends `mkTxnRow req` to the store and returns it.  No other check is
performed. -/
def createTransaction (req : TxnCreateReq) (store : List TransactionRow) :
    Except ApiError (List TransactionRow × TransactionRow) :=
  if !strTruthy req.order_id || !strTruthy req.customer_id
      || !intTruthy req.amount_cents || !strTruthy req.location_id then
    .error (.badRequest "order_id, customer_id, amount_cents, and location_id are required")
  else
    .ok (store ++ [mkTxnRow req], mkTxnRow req)

/-- Request body of `PUT /api/transactions/:id`: the handler destructures only
`status, applied_date, note`. -/
structure TxnPatch where
  status : Option String
  applied_date : Option Nat
  note : Option String
  deriving Repr

/-- The row transformation `PUT /api/transactions/:id` (`server.js` 1034-1044)
applies to the matched row: `SET status = COALESCE($1, status),
applied_date = COALESCE($2, applied_date), note = COALESCE($3, note)`.
`updated_at` (wall-clock) is outside the embedding; no other column appears in
the UPDATE. -/
def applyTransactionPatch (p : TxnPatch) (t : TransactionRow) : TransactionRow :=
  { t with
    status := p.status.getD t.status
    applied_date := match p.applied_date with | some d => some d | none => t.applied_date
    note := match p.note with | some s => some s | none => t.note }

/-- Failure of the external Stripe call, caught by the handler's `catch`. -/
inductive GatewayError where
  | timeout
  | apiFailure (msg : String)
  deriving DecidableEq, Repr

/-- The `{id, status, amount, metadata}` fields of a Stripe payment intent that
`POST /api/payments/confirm` reads. -/
structure PaymentIntent where
  id : String
  status : String
  amount : Int
  metadata_company_id : Option String
  metadata_location_id : Option String
  deriving DecidableEq, Repr

/-- Request body of `POST /api/payments/confirm`. -/
structure ConfirmReq where
  payment_intent_id : Option String
  order_id : Option String
  customer_id : Option String
  location_id : Option String
  deriving Repr

/-- Response of `POST /api/payments/confirm`: 400, 500 (from the catch block),
or the success payload carrying the inserted transaction. -/
inductive ConfirmResponse where
  | badRequest (msg : String)
  | serverError
  | success (t : TransactionRow)
  deriving DecidableEq, Repr

/-- The row `POST /api/payments/confirm` inserts after a succeeded intent:
type `'payment'`, amount from the intent, method `'stripe'`, status `'paid'`,
`payment_reference` set to the intent id. -/
def mkConfirmRow (intent : PaymentIntent) (req : ConfirmReq) : TransactionRow :=
  { order_id := req.order_id.getD ""
    customer_id := req.customer_id.getD ""
    transaction_type := "payment"
    amount_cents := intent.amount
    payment_method := some "stripe"
    status := "paid"
    payment_reference := some intent.id
    applied_date := none
    note := none }

/-- `POST /api/payments/confirm` (`server.js` 1540-1584).  `gw` is the outcome
of `stripe.paymentIntents.retrieve`: an exception lands in the handler's catch
block (HTTP 500, nothing written); a non-succeeded intent yields HTTP 400
(nothing written); a succeeded intent is inserted unconditionally — the store
is never consulted for an existing `payment_reference`. -/
def confirmPayment (gw : Except GatewayError PaymentIntent) (req : ConfirmReq)
    (store : List TransactionRow) : ConfirmResponse × List TransactionRow :=
  if !strTruthy req.payment_intent_id || !strTruthy req.order_id
      || !strTruthy req.customer_id then
    (.badRequest "payment_intent_id, order_id, and customer_id are required", store)
  else
    match gw with
    | .error _ => (.serverError, store)
    | .ok intent =>
      if !(intent.status == "succeeded") then
        (.badRequest "Payment not successful", store)
      else
        (.success (mkConfirmRow intent req), store ++ [mkConfirmRow intent req])

/-- A row of the `order_line_item` table (`schema.sql` 368-414), restricted to
the columns the handlers and the rollup read.  `quantity` and `labor_hours`
are nullable NUMERIC columns (modelled as integers; fractional quantities are
outside the claims); sign is unconstrained in the schema. -/
structure LineItemRow where
  id : String
  order_id : String
  name : String
  category : Option String
  pricing : String
  quantity : Option Int
  fixed_price_cents : Int
  labor_hours : Option Int
  labor_rate_cents : Option Int
  parts_cost_cents : Option Int
  discount_cents : Int
  discount_percent : Int
  tax_cents : Int
  tax_percent : Int
  total_cents : Int
  hidden : Bool
  status : String
  note : String
  deriving DecidableEq, Repr

/-- A row of the `"order"` table (`schema.sql` 331-366), restricted to the
columns relevant to the ledger: the order-level discount/tax percents and the
calculated totals columns (BIGINT DEFAULT 0). -/
structure OrderRow where
  id : String
  status : String
  note : String
  discount_percent : Int
  tax_percent : Int
  calculated_labor_cents : Int
  calculated_parts_cents : Int
  calculated_subcontracts_cents : Int
  calculated_shop_supplies_cents : Int
  calculated_discount_cents : Int
  calculated_tax_cents : Int
  calculated_subtotal_cents : Int
  calculated_total_cents : Int
  deriving DecidableEq, Repr

/-- The slice of the database the line-item endpoints can reach: the `"order"`
rows and the `order_line_item` rows. -/
structure DbState where
  orders : List OrderRow
  items : List LineItemRow
  deriving DecidableEq, Repr

/-- Request body of `POST /api/order-line-items` as the handler destructures
it. -/
structure LineItemCreateReq where
  company_id : Option String
  location_id : Option String
  order_id : Option String
  name : Option String
  category : Option String
  pricing : Option String
  quantity : Option Int
  fixed_price_cents : Option Int
  labor_hours : Option Int
  note : Option String
  deriving Repr

/-- The row `POST /api/order-line-items` inserts: `pricing || 'fixed'`,
`fixed_price_cents || 0`, `note || ''`, `quantity` and `labor_hours` passed
through unchecked; remaining columns take their schema defaults.  `newId`
stands for the generated UUID. -/
def mkLineItemRow (req : LineItemCreateReq) (newId : String) : LineItemRow :=
  { id := newId
    order_id := req.order_id.getD ""
    name := req.name.getD ""
    category := req.category
    pricing := jsOrString req.pricing "fixed"
    quantity := req.quantity
    fixed_price_cents := req.fixed_price_cents.getD 0
    labor_hours := req.labor_hours
    labor_rate_cents := none
    parts_cost_cents := none
    discount_cents := 0
    discount_percent := 0
    tax_cents := 0
    tax_percent := 0
    total_cents := 0
    hidden := false
    status := "pending"
    note := req.note.getD "" }

/-- `POST /api/order-line-items` (`server.js` 912-925): rejects when
`!order_id || !name || !location_id`, otherwise inserts the row.  The handler
touches only the `order_line_item` table; the `"order"` rows are left as they
are, and no sign or range check is applied to `quantity`, `fixed_price_cents`
or `labor_hours`. -/
def createLineItemEndpoint (req : LineItemCreateReq) (newId : String) (st : DbState) :
    Except ApiError (DbState × LineItemRow) :=
  if !strTruthy req.order_id || !strTruthy req.name || !strTruthy req.location_id then
    .error (.badRequest "order_id, name, and location_id are required")
  else
    .ok ({ st with items := st.items ++ [mkLineItemRow req newId] }, mkLineItemRow req newId)

/-- Request body of `PUT /api/order-line-items/:id`: the handler destructures
only `name, quantity, fixed_price_cents, labor_hours, note`. -/
structure LineItemPatch where
  name : Option String
  quantity : Option Int
  fixed_price_cents : Option Int
  labor_hours : Option Int
  note : Option String
  deriving Repr

/-- The row transformation `PUT /api/order-line-items/:id` (`server.js`
932-942) applies to the matched row: each of the five updatable columns is
`COALESCE($n, col)`; `updated_at` (wall-clock) is outside the embedding; no
other column appears in the UPDATE statement. -/
def applyLineItemPatch (p : LineItemPatch) (r : LineItemRow) : LineItemRow :=
  { r with
    name := p.name.getD r.name
    quantity := match p.quantity with | some q => some q | none => r.quantity
    fixed_price_cents := p.fixed_price_cents.getD r.fixed_price_cents
    labor_hours := match p.labor_hours with | some h => some h | none => r.labor_hours
    note := p.note.getD r.note }

/-- `PUT /api/order-line-items/:id`: applies `applyLineItemPatch` to the row
with the given id (404 when no row matches).  The handler touches only the
`order_line_item` table; the `"order"` rows are left as they are. -/
def updateLineItemEndpoint (p : LineItemPatch) (itemId : String) (st : DbState) :
    Except ApiError DbState :=
  if st.items.any (fun r => r.id == itemId) then
    .ok { st with
      items := st.items.map (fun r => if r.id == itemId then applyLineItemPatch p r else r) }
  else
    .error (.notFound "Line item not found")

/-- Modelled from the spec: the Money type's `apply_percent` (spec 4.1), which
is absent from the source.  Rounds half-up to the nearest cent for the
non-negative bases and percents the spec uses. -/
def apply_percent (base : Int) (percent : Int) : Int :=
  (base * percent + 50) / 100

/-- Modelled from the spec: a line item's base amount (spec 4.2) — the Line
Item Pricing Engine is absent from the source.  FixedPrice uses
`fixed_price_cents`; LaborRate uses `labor_rate_cents * labor_hours`;
PartsCost uses `parts_cost_cents * quantity`. -/
def lineBase (r : LineItemRow) : Int :=
  if r.pricing == "labor" then (r.labor_rate_cents.getD 0) * (r.labor_hours.getD 0)
  else if r.pricing == "parts" then (r.parts_cost_cents.getD 0) * (r.quantity.getD 0)
  else r.fixed_price_cents

/-- Modelled from the spec: line-level discount amount (spec 4.2) —
`discount_cents` or `apply_percent(base, discount_percent)` (the two are
mutually exclusive per the data-model invariant). -/
def lineDiscountAmount (r : LineItemRow) : Int :=
  if !(r.discount_cents == 0) then r.discount_cents
  else apply_percent (lineBase r) r.discount_percent

/-- Modelled from the spec: a line item's post-discount amount, floored at
zero (spec 4.2). -/
def linePostDiscount (r : LineItemRow) : Int :=
  max 0 (lineBase r - lineDiscountAmount r)

/-- Modelled from the spec: line-level tax on the post-discount base (spec
4.2) — `tax_cents` or `apply_percent(post_discount, tax_percent)`; a
non-taxable item carries zero in both columns. -/
def lineTaxAmount (r : LineItemRow) : Int :=
  if !(r.tax_cents == 0) then r.tax_cents
  else apply_percent (linePostDiscount r) r.tax_percent

/-- The Order Rollup Aggregator's output record (spec 4.3); its fields mirror
the `calculated_*` columns of the `"order"` table. -/
structure OrderTotals where
  labor_cents : Int
  parts_cents : Int
  subcontracts_cents : Int
  shop_supplies_cents : Int
  subtotal_cents : Int
  discount_cents : Int
  tax_cents : Int
  total_cents : Int
  deriving DecidableEq, Repr

/-- Modelled from the spec: per-category pre-tax, pre-order-discount sum
(spec 4.3 step 1). -/
def categorySum (items : List LineItemRow) (cat : String) : Int :=
  (items.filter (fun r => r.category == some cat)).foldl
    (fun acc r => acc + linePostDiscount r) 0

/-- Modelled from the spec: `recompute_order_totals(order, line_items)`
(spec 4.3) — the Order Rollup Aggregator is absent from the source (only its
output columns exist in the schema).  Non-hidden items are summed; the
order-level discount is capped at the subtotal; order tax applies to the
discounted subtotal; line-level taxes are additive.  The function reads only
`discount_percent` and `tax_percent` from the order row — never the cached
`calculated_*` columns. -/
def recompute_order_totals (o : OrderRow) (items : List LineItemRow) : OrderTotals :=
  let vis := items.filter (fun r => !r.hidden)
  let subtotal := vis.foldl (fun acc r => acc + linePostDiscount r) 0
  let orderDiscount := min subtotal (apply_percent subtotal o.discount_percent)
  let discounted := subtotal - orderDiscount
  let orderTax := apply_percent discounted o.tax_percent
  let lineTaxes := vis.foldl (fun acc r => acc + lineTaxAmount r) 0
  { labor_cents := categorySum vis "labor"
    parts_cents := categorySum vis "parts"
    subcontracts_cents := categorySum vis "subcontract"
    shop_supplies_cents := categorySum vis "shop_supply"
    subtotal_cents := subtotal
    discount_cents := orderDiscount
    tax_cents := orderTax + lineTaxes
    total_cents := discounted + orderTax + lineTaxes }

/-- Persisting a rollup result into the order row's `calculated_*` cache
columns (the store step of a recompute-then-persist pass). -/
def applyTotals (o : OrderRow) (t : OrderTotals) : OrderRow :=
  { o with
    calculated_labor_cents := t.labor_cents
    calculated_parts_cents := t.parts_cents
    calculated_subcontracts_cents := t.subcontracts_cents
    calculated_shop_supplies_cents := t.shop_supplies_cents
    calculated_subtotal_cents := t.subtotal_cents
    calculated_discount_cents := t.discount_cents
    calculated_tax_cents := t.tax_cents
    calculated_total_cents := t.total_cents }

/-- The Ledger Reconciliation Engine's balance record (spec 4.4). -/
structure BalanceState where
  total_cents : Int
  paid_cents : Int
  refunded_cents : Int
  due_cents : Int
  credit_cents : Int
  deriving DecidableEq, Repr

/-- Modelled from the spec: single pass over the transaction list accumulating
(paid, refunded) — sums of succeeded payment amounts and succeeded refund
amounts (spec 4.4). -/
def paidRefundedTotals : List TransactionRow → Int × Int
  | [] => (0, 0)
  | t :: ts =>
    let rest := paidRefundedTotals ts
    if t.status == "succeeded" then
      if t.transaction_type == "payment" then (rest.1 + t.amount_cents, rest.2)
      else if t.transaction_type == "refund" then (rest.1, rest.2 + t.amount_cents)
      else rest
    else rest

/-- Modelled from the spec: `balance(order, transactions)` (spec 4.4) — the
Ledger Reconciliation Engine is absent from the source.  `due_cents` is
floored at zero; overpayment is reported in the separate `credit_cents`
field. -/
def balance (total_cents : Int) (txns : List TransactionRow) : BalanceState :=
  let pr := paidRefundedTotals txns
  { total_cents := total_cents
    paid_cents := pr.1
    refunded_cents := pr.2
    due_cents := max 0 (total_cents - pr.1 + pr.2)
    credit_cents := max 0 (pr.1 - pr.2 - total_cents) }

/-- A row of the `"authorization"` table (`schema.sql` 498-516), restricted to
the pre-approved ceiling column. -/
structure AuthorizationRow where
  order_id : String
  authorized_cost_cents : Int
  deriving DecidableEq, Repr

/-- Sum of the pre-approved ceilings of a list of authorizations (the
`sum(active authorizations)` bound of spec 4.4). -/
def sumAuthorizedCents (l : List AuthorizationRow) : Int :=
  l.foldl (fun acc a => acc + a.authorized_cost_cents) 0

/-! Concrete fixtures used by the closed counterexample and witness theorems
below. -/

/-- A confirm request with all required fields present. -/
def req1 : ConfirmReq :=
  { payment_intent_id := some "pi_1", order_id := some "o1",
    customer_id := some "c1", location_id := some "l1" }

/-- A succeeded Stripe intent for 5000 cents with id `pi_1`. -/
def intent1 : PaymentIntent :=
  { id := "pi_1", status := "succeeded", amount := 5000,
    metadata_company_id := none, metadata_location_id := none }

/-- A transaction already stored with succeeded status and reference `pi_1`. -/
def existing1 : TransactionRow :=
  { order_id := "o1", customer_id := "c1", transaction_type := "payment",
    amount_cents := 5000, payment_method := some "stripe", status := "succeeded",
    payment_reference := some "pi_1", applied_date := none, note := none }

/-- A single active authorization with a 20000-cent (200 dollar) ceiling. -/
def auths3 : List AuthorizationRow := [{ order_id := "o1", authorized_cost_cents := 20000 }]

/-- A 25000-cent payment request passing the endpoint's presence validation. -/
def req3 : TxnCreateReq :=
  { company_id := none, location_id := some "l1", order_id := some "o1",
    customer_id := some "c1", transaction_type := some "payment",
    amount_cents := some 25000, payment_method := some "card",
    note := none, status := none }

/-- An order row whose cached totals are all zero. -/
def order4 : OrderRow :=
  { id := "o1", status := "open", note := "", discount_percent := 0, tax_percent := 0,
    calculated_labor_cents := 0, calculated_parts_cents := 0,
    calculated_subcontracts_cents := 0, calculated_shop_supplies_cents := 0,
    calculated_discount_cents := 0, calculated_tax_cents := 0,
    calculated_subtotal_cents := 0, calculated_total_cents := 0 }

/-- A fixed-price line item of `order4`, currently priced at zero cents. -/
def item4 : LineItemRow :=
  { id := "li1", order_id := "o1", name := "svc", category := some "labor",
    pricing := "fixed", quantity := some 1, fixed_price_cents := 0,
    labor_hours := none, labor_rate_cents := none, parts_cost_cents := none,
    discount_cents := 0, discount_percent := 0, tax_cents := 0, tax_percent := 0,
    total_cents := 0, hidden := false, status := "pending", note := "" }

/-- The database slice holding `order4` and `item4`. -/
def st4 : DbState := { orders := [order4], items := [item4] }

/-- A patch raising the line item's fixed price to 10000 cents. -/
def patch4 : LineItemPatch :=
  { name := none, quantity := none, fixed_price_cents := some 10000,
    labor_hours := none, note := none }

/-- The state after `patch4` is applied to `item4`: the order row untouched. -/
def st4u : DbState := { orders := [order4], items := [applyLineItemPatch patch4 item4] }

/-- A create request for a second line item of `order4`. -/
def req4 : LineItemCreateReq :=
  { company_id := none, location_id := some "l1", order_id := some "o1",
    name := some "part", category := some "parts", pricing := some "parts",
    quantity := some 2, fixed_price_cents := none, labor_hours := none, note := none }

/-- The result of inserting `req4` into `st4`: the order row untouched. -/
def pr4 : DbState × LineItemRow :=
  ({ orders := [order4], items := [item4, mkLineItemRow req4 "li2"] },
    mkLineItemRow req4 "li2")

/-- A succeeded payment transaction of 10000 cents. -/
def txn5 : TransactionRow :=
  { order_id := "o1", customer_id := "c1", transaction_type := "payment",
    amount_cents := 10000, payment_method := some "card", status := "succeeded",
    payment_reference := none, applied_date := none, note := none }

/-- A confirm request used for the gateway-failure scenario. -/
def req6 : ConfirmReq :=
  { payment_intent_id := some "pi_6", order_id := some "o6",
    customer_id := some "c6", location_id := some "l6" }

/-- A line-item create request with a negative quantity and negative price,
passing the endpoint's presence validation. -/
def req7 : LineItemCreateReq :=
  { company_id := none, location_id := some "l1", order_id := some "o1",
    name := some "labor", category := some "labor", pricing := some "fixed",
    quantity := some (-1), fixed_price_cents := some (-500),
    labor_hours := none, note := none }

/-- A transaction-create request that supplies `status := "succeeded"`. -/
def req9 : TxnCreateReq :=
  { company_id := none, location_id := some "l1", order_id := some "o1",
    customer_id := some "c1", transaction_type := some "payment",
    amount_cents := some 5000, payment_method := some "cash", note := none,
    status := some "succeeded" }

/-! Helper lemmas shared by the claim theorems. -/

/-- The paid accumulator of `paidRefundedTotals` equals the sum of succeeded
payment amounts. -/
theorem paidRefundedTotals_fst (txns : List TransactionRow) :
    (paidRefundedTotals txns).1
      = ((txns.filter fun t => t.status == "succeeded" && t.transaction_type == "payment").map
          fun t => t.amount_cents).sum := by
  induction txns with
  | nil => rfl
  | cons t ts ih =>
    simp only [paidRefundedTotals, List.filter_cons]
    cases hs : t.status == "succeeded" with
    | false => simpa [hs] using ih
    | true =>
      cases hp : t.transaction_type == "payment" with
      | true =>
        simp [hs, hp, ih]
        omega
      | false =>
        cases hr : t.transaction_type == "refund" with
        | true => simpa [hs, hp, hr] using ih
        | false => simpa [hs, hp, hr] using ih

/-- The refunded accumulator of `paidRefundedTotals` equals the sum of
succeeded refund amounts. -/
theorem paidRefundedTotals_snd (txns : List TransactionRow) :
    (paidRefundedTotals txns).2
      = ((txns.filter fun t => t.status == "succeeded" && t.transaction_type == "refund").map
          fun t => t.amount_cents).sum := by
  induction txns with
  | nil => rfl
  | cons t ts ih =>
    simp only [paidRefundedTotals, List.filter_cons]
    cases hs : t.status == "succeeded" with
    | false => simpa [hs] using ih
    | true =>
      cases hp : t.transaction_type == "payment" with
      | true =>
        have hr : (t.transaction_type == "refund") = false := by
          simp only [beq_iff_eq] at hp ⊢
          simp [hp]
        simpa [hs, hp, hr] using ih
      | false =>
        cases hr : t.transaction_type == "refund" with
        | true =>
          simp [hs, hp, hr, ih]
          omega
        | false => simpa [hs, hp, hr] using ih

/-! Claim theorems. -/

/-- C1 (counterexample): recording a transaction is NOT idempotent on
`payment_reference`.  With a succeeded transaction carrying reference `pi_1`
already stored, confirming the same intent again stores a second row — the
store then holds two transactions with that reference — and the endpoint
returns the newly inserted row, which differs from the existing one. -/
theorem duplicate_reference_second_row_stored :
    existing1.status = "succeeded"
      ∧ existing1.payment_reference = some "pi_1"
      ∧ intent1.id = "pi_1"
      ∧ (confirmPayment (.ok intent1) req1 [existing1]).2.length = 2
      ∧ ((confirmPayment (.ok intent1) req1 [existing1]).2.filter
            fun t => t.payment_reference == some "pi_1").length = 2
      ∧ (confirmPayment (.ok intent1) req1 [existing1]).1
          = .success (mkConfirmRow intent1 req1)
      ∧ mkConfirmRow intent1 req1 ≠ existing1 := by
  refine ⟨rfl, rfl, rfl, rfl, rfl, rfl, ?_⟩
  decide

/-- C1 (amended): `POST /api/payments/confirm` performs no duplicate-reference
check.  Whenever validation passes and the gateway reports the intent
succeeded, it appends a new Transaction row to the store — even if a succeeded
transaction with the same `payment_reference` already exists — and returns the
new row rather than the existing one. -/
theorem confirm_appends_unconditionally (gw : Except GatewayError PaymentIntent)
    (intent : PaymentIntent) (req : ConfirmReq) (store : List TransactionRow)
    (hgw : gw = .ok intent) (hs : intent.status = "succeeded")
    (h1 : strTruthy req.payment_intent_id = true) (h2 : strTruthy req.order_id = true)
    (h3 : strTruthy req.customer_id = true) :
    confirmPayment gw req store
      = (.success (mkConfirmRow intent req), store ++ [mkConfirmRow intent req]) := by
  subst hgw
  simp [confirmPayment, h1, h2, h3, hs]

/-- C1 (witness): the amended theorem applied to a store that already holds a
succeeded transaction with the same reference `pi_1`. -/
theorem confirm_appends_unconditionally_witness :
    intent1.status = "succeeded"
      ∧ strTruthy req1.payment_intent_id = true
      ∧ strTruthy req1.order_id = true
      ∧ strTruthy req1.customer_id = true
      ∧ existing1.payment_reference = some intent1.id
      ∧ confirmPayment (.ok intent1) req1 [existing1]
          = (.success (mkConfirmRow intent1 req1),
              [existing1] ++ [mkConfirmRow intent1 req1]) :=
  ⟨rfl, rfl, rfl, rfl, rfl,
    confirm_appends_unconditionally (.ok intent1) intent1 req1 [existing1] rfl rfl rfl rfl rfl⟩

/-- C2: the spec-modelled `balance` operation returns `paid_cents` equal to the
sum of succeeded payment amounts, `refunded_cents` equal to the sum of
succeeded refund amounts, and
`due_cents = max 0 (total_cents - paid_cents + refunded_cents)`; `due_cents`
is never negative, and overpayment is reported in the separate `credit_cents`
field. -/
theorem balance_spec (total : Int) (txns : List TransactionRow) :
    (balance total txns).paid_cents
        = ((txns.filter fun t => t.status == "succeeded" && t.transaction_type == "payment").map
            fun t => t.amount_cents).sum
      ∧ (balance total txns).refunded_cents
        = ((txns.filter fun t => t.status == "succeeded" && t.transaction_type == "refund").map
            fun t => t.amount_cents).sum
      ∧ (balance total txns).due_cents
        = max 0 (total - (balance total txns).paid_cents + (balance total txns).refunded_cents)
      ∧ 0 ≤ (balance total txns).due_cents
      ∧ (balance total txns).credit_cents
        = max 0 ((balance total txns).paid_cents - (balance total txns).refunded_cents - total) :=
  ⟨paidRefundedTotals_fst txns, paidRefundedTotals_snd txns, rfl, le_max_left 0 _, rfl⟩

/-- C3 (counterexample): with a single active authorization of 20000 cents and
no override flag (the endpoint has none), a 25000-cent payment is accepted and
stored by `POST /api/transactions` — no `OverAuthorization` failure occurs. -/
theorem over_authorization_payment_accepted :
    sumAuthorizedCents auths3 = 20000
      ∧ req3.amount_cents = some 25000
      ∧ (20000 : Int) < 25000
      ∧ createTransaction req3 [] = .ok ([mkTxnRow req3], mkTxnRow req3)
      ∧ (mkTxnRow req3).amount_cents = 25000 := by
  refine ⟨rfl, rfl, ?_, rfl, rfl⟩
  decide

/-- C3 (amended): `POST /api/transactions` performs no authorization-ceiling
check and has no override flag: every request passing the presence validation
is stored with the requested amount, independently of any stored
authorizations. -/
theorem create_transaction_ignores_authorizations (req : TxnCreateReq)
    (store : List TransactionRow)
    (h1 : strTruthy req.order_id = true) (h2 : strTruthy req.customer_id = true)
    (h3 : intTruthy req.amount_cents = true) (h4 : strTruthy req.location_id = true) :
    createTransaction req store = .ok (store ++ [mkTxnRow req], mkTxnRow req)
      ∧ (mkTxnRow req).amount_cents = req.amount_cents.getD 0 := by
  constructor
  · unfold createTransaction
    rw [h1, h2, h3, h4]
    rfl
  · rfl

/-- C3 (witness): the amended theorem applied to the 25000-cent request that
exceeds the 20000-cent authorization ceiling. -/
theorem create_transaction_ignores_authorizations_witness :
    strTruthy req3.order_id = true
      ∧ strTruthy req3.customer_id = true
      ∧ intTruthy req3.amount_cents = true
      ∧ strTruthy req3.location_id = true
      ∧ (createTransaction req3 [] = .ok ([mkTxnRow req3], mkTxnRow req3)
          ∧ (mkTxnRow req3).amount_cents = req3.amount_cents.getD 0) :=
  ⟨rfl, rfl, rfl, rfl,
    create_transaction_ignores_authorizations req3 [] rfl rfl rfl rfl⟩

/-- C4 (counterexample): after `PUT /api/order-line-items/:id` raises a line
item's fixed price to 10000 cents, the order row is untouched: its stored
`calculated_total_cents` is still 0 while a rollup pass over the current line
items yields 10000 — the stored computed fields are left stale. -/
theorem stale_totals_after_line_item_update :
    updateLineItemEndpoint patch4 "li1" st4 = .ok st4u
      ∧ st4u.orders = [order4]
      ∧ order4.calculated_total_cents = 0
      ∧ (recompute_order_totals order4 st4u.items).total_cents = 10000
      ∧ (0 : Int) ≠ 10000 := by
  refine ⟨rfl, rfl, rfl, ?_, ?_⟩ <;> decide

/-- C4 (amended): the line-item create and update endpoints touch only the
`order_line_item` table; the `"order"` rows — in particular every
`calculated_*` column — keep their previous values, so no rollup pass runs and
the stored totals can be stale relative to the order's current line items. -/
theorem line_item_endpoints_preserve_orders (p : LineItemPatch) (itemId : String)
    (req : LineItemCreateReq) (newId : String) (st st1 : DbState)
    (pr : DbState × LineItemRow)
    (h1 : updateLineItemEndpoint p itemId st = .ok st1)
    (h2 : createLineItemEndpoint req newId st = .ok pr) :
    st1.orders = st.orders ∧ pr.1.orders = st.orders := by
  constructor
  · unfold updateLineItemEndpoint at h1
    split at h1
    · simp only [Except.ok.injEq] at h1
      subst h1
      rfl
    · simp at h1
  · unfold createLineItemEndpoint at h2
    split at h2
    · simp at h2
    · simp only [Except.ok.injEq] at h2
      subst h2
      rfl

/-- C4 (witness): the amended theorem applied to the concrete update of `item4`
and the concrete insertion of `req4` into `st4`. -/
theorem line_item_endpoints_preserve_orders_witness :
    updateLineItemEndpoint patch4 "li1" st4 = .ok st4u
      ∧ createLineItemEndpoint req4 "li2" st4 = .ok pr4
      ∧ (st4u.orders = st4.orders ∧ pr4.1.orders = st4.orders) :=
  ⟨rfl, rfl,
    line_item_endpoints_preserve_orders patch4 "li1" req4 "li2" st4 st4u pr4 rfl rfl⟩

/-- C5 (counterexample): `PUT /api/transactions/:id` moves a succeeded
payment-type transaction to `voided` — and even back to `pending` — with no
transition validation, contradicting the claimed state machine. -/
theorem succeeded_payment_voided :
    txn5.transaction_type = "payment"
      ∧ txn5.status = "succeeded"
      ∧ (applyTransactionPatch { status := some "voided", applied_date := none, note := none }
            txn5).status = "voided"
      ∧ (applyTransactionPatch { status := some "pending", applied_date := none, note := none }
            txn5).status = "pending" :=
  ⟨rfl, rfl, rfl, rfl⟩

/-- C5 (amended): `PUT /api/transactions/:id` applies any caller-supplied
status string with no transition validation — including voiding a succeeded
payment or returning a settled transaction to pending — while `amount_cents`,
`transaction_type` and the other ledger columns are never mutated by the
endpoint (it writes only status, applied_date and note). -/
theorem transaction_patch_semantics (p : TxnPatch) (t : TransactionRow) :
    (applyTransactionPatch p t).status = p.status.getD t.status
      ∧ (applyTransactionPatch p t).amount_cents = t.amount_cents
      ∧ (applyTransactionPatch p t).transaction_type = t.transaction_type
      ∧ (applyTransactionPatch p t).order_id = t.order_id
      ∧ (applyTransactionPatch p t).customer_id = t.customer_id
      ∧ (applyTransactionPatch p t).payment_method = t.payment_method
      ∧ (applyTransactionPatch p t).payment_reference = t.payment_reference :=
  ⟨rfl, rfl, rfl, rfl, rfl, rfl, rfl⟩

/-- C6 (counterexample): when the gateway call fails, `POST /api/payments/confirm`
persists nothing at all — starting from an empty store, the store is still
empty and the handler answers with the 500 error from its catch block; no
Transaction with status `pending` exists afterwards. -/
theorem gateway_failure_drops_transaction :
    confirmPayment (.error GatewayError.timeout) req6 []
        = (ConfirmResponse.serverError, [])
      ∧ ((confirmPayment (.error GatewayError.timeout) req6 []).2.filter
            fun t => t.status == "pending") = [] :=
  ⟨rfl, rfl⟩

/-- C6 (amended): any gateway-call failure leaves the transaction store
unchanged — the handler's catch block returns an error and persists no
Transaction (in particular none with status `pending`), so a failed
confirmation is silently dropped rather than parked for reconciliation. -/
theorem gateway_failure_store_unchanged (e : GatewayError) (req : ConfirmReq)
    (store : List TransactionRow) :
    (confirmPayment (.error e) req store).2 = store := by
  unfold confirmPayment
  split
  · rfl
  · rfl

/-- C7 (counterexample): a line-item create request with quantity -1 and fixed
price -500 passes `POST /api/order-line-items` validation and a row is
persisted with exactly those negative values — no `InvalidLineItem` rejection
occurs. -/
theorem negative_quantity_persisted :
    req7.quantity = some (-1)
      ∧ createLineItemEndpoint req7 "li7" { orders := [], items := [] }
          = .ok ({ orders := [], items := [mkLineItemRow req7 "li7"] },
                  mkLineItemRow req7 "li7")
      ∧ (mkLineItemRow req7 "li7").quantity = some (-1)
      ∧ (mkLineItemRow req7 "li7").fixed_price_cents = -500 :=
  ⟨rfl, rfl, rfl, rfl⟩

/-- C7 (amended): `POST /api/order-line-items` validates only the presence of
`order_id`, `name` and `location_id`; any quantity and any fixed price —
negative included — flow through unchecked and the row is persisted with those
values. -/
theorem create_line_item_no_value_validation (req : LineItemCreateReq) (newId : String)
    (st : DbState)
    (h1 : strTruthy req.order_id = true) (h2 : strTruthy req.name = true)
    (h3 : strTruthy req.location_id = true) :
    createLineItemEndpoint req newId st
        = .ok ({ st with items := st.items ++ [mkLineItemRow req newId] },
                mkLineItemRow req newId)
      ∧ (mkLineItemRow req newId).quantity = req.quantity
      ∧ (mkLineItemRow req newId).fixed_price_cents = req.fixed_price_cents.getD 0 := by
  refine ⟨?_, rfl, rfl⟩
  unfold createLineItemEndpoint
  rw [h1, h2, h3]
  rfl

/-- C7 (witness): the amended theorem applied to the request with quantity -1
and fixed price -500. -/
theorem create_line_item_no_value_validation_witness :
    strTruthy req7.order_id = true
      ∧ strTruthy req7.name = true
      ∧ strTruthy req7.location_id = true
      ∧ (createLineItemEndpoint req7 "li8" { orders := [], items := [] }
            = .ok ({ orders := [], items := [mkLineItemRow req7 "li8"] },
                    mkLineItemRow req7 "li8")
          ∧ (mkLineItemRow req7 "li8").quantity = req7.quantity
          ∧ (mkLineItemRow req7 "li8").fixed_price_cents = req7.fixed_price_cents.getD 0) :=
  ⟨rfl, rfl, rfl,
    create_line_item_no_value_validation req7 "li8" { orders := [], items := [] } rfl rfl rfl⟩

/-- C8: the spec-modelled rollup is idempotent — persisting the totals of a
first rollup pass into the order row's `calculated_*` cache columns and
recomputing over the same unchanged line items yields output identical to the
first pass (the rollup reads only `discount_percent` and `tax_percent` from
the order, never the cached columns). -/
theorem recompute_order_totals_idempotent (o : OrderRow) (items : List LineItemRow) :
    recompute_order_totals (applyTotals o (recompute_order_totals o items)) items
      = recompute_order_totals o items := rfl

/-- C9: every transaction created through `POST /api/transactions` is stored
with status `pending`, whatever status the caller supplied — the handler never
reads the body's `status` field. -/
theorem created_transaction_status_pending (req : TxnCreateReq)
    (store : List TransactionRow) (res : List TransactionRow × TransactionRow)
    (h : createTransaction req store = .ok res) : res.2.status = "pending" := by
  unfold createTransaction at h
  split at h
  · simp at h
  · simp only [Except.ok.injEq] at h
    subst h
    rfl

/-- C9 (witness): a request supplying `status := "succeeded"` still yields a
stored transaction with status `pending`. -/
theorem created_transaction_status_pending_witness :
    createTransaction req9 [] = .ok ([mkTxnRow req9], mkTxnRow req9)
      ∧ req9.status = some "succeeded"
      ∧ ([mkTxnRow req9], mkTxnRow req9).2.status = "pending" :=
  ⟨rfl, rfl,
    created_transaction_status_pending req9 [] ([mkTxnRow req9], mkTxnRow req9) rfl⟩

/-- C10: frame property of `PUT /api/order-line-items/:id` — the row
transformation leaves `id`, `order_id`, `category`, `pricing`,
`labor_rate_cents`, `parts_cost_cents`, `discount_cents`, `discount_percent`,
`tax_cents`, `tax_percent`, `total_cents`, `hidden` and `status` unchanged,
and gives each of the five updatable columns COALESCE semantics: a provided
value replaces the column, an omitted one keeps the previous value. -/
theorem line_item_patch_frame (p : LineItemPatch) (r : LineItemRow) :
    (applyLineItemPatch p r).id = r.id
      ∧ (applyLineItemPatch p r).order_id = r.order_id
      ∧ (applyLineItemPatch p r).category = r.category
      ∧ (applyLineItemPatch p r).pricing = r.pricing
      ∧ (applyLineItemPatch p r).labor_rate_cents = r.labor_rate_cents
      ∧ (applyLineItemPatch p r).parts_cost_cents = r.parts_cost_cents
      ∧ (applyLineItemPatch p r).discount_cents = r.discount_cents
      ∧ (applyLineItemPatch p r).discount_percent = r.discount_percent
      ∧ (applyLineItemPatch p r).tax_cents = r.tax_cents
      ∧ (applyLineItemPatch p r).tax_percent = r.tax_percent
      ∧ (applyLineItemPatch p r).total_cents = r.total_cents
      ∧ (applyLineItemPatch p r).hidden = r.hidden
      ∧ (applyLineItemPatch p r).status = r.status
      ∧ (applyLineItemPatch p r).name = p.name.getD r.name
      ∧ (applyLineItemPatch p r).quantity
          = (if p.quantity.isSome then p.quantity else r.quantity)
      ∧ (applyLineItemPatch p r).fixed_price_cents
          = p.fixed_price_cents.getD r.fixed_price_cents
      ∧ (applyLineItemPatch p r).labor_hours
          = (if p.labor_hours.isSome then p.labor_hours else r.labor_hours)
      ∧ (applyLineItemPatch p r).note = p.note.getD r.note := by
  refine ⟨rfl, rfl, rfl, rfl, rfl, rfl, rfl, rfl, rfl, rfl, rfl, rfl, rfl, rfl, ?_, rfl, ?_, rfl⟩
  · cases hq : p.quantity with
    | none => simp [applyLineItemPatch, hq]
    | some q => simp [applyLineItemPatch, hq]
  · cases hh : p.labor_hours with
    | none => simp [applyLineItemPatch, hh]
    | some h => simp [applyLineItemPatch, hh]

end Chariot
